import Mathlib

/-!
# Verification of the `why-ANOVA-matters` simulation driver

Shallow embedding of the notebook `why_ANOVA_matters.ipynb`.  The notebook
draws synthetic samples from a seeded pseudo-random normal generator, runs
either all pairwise two-sample t-tests (`do_all_way_pairwise_tests`) or a
single one-way ANOVA F-test (`do_ANOVA`) on the groups, and aggregates the
boolean outcomes over many trials (`num_false_positives`, `empirical_FPR`).

The external library collaborators (numpy's seeded normal generator,
`scipy.stats.ttest_ind`, `scipy.stats.f_oneway`) are black boxes from the
repository's point of view: they are modelled as fields of an environment
`Env`.  The seeded generator is a stream `normal : ℕ → ℚ` of draws, consumed
sequentially; the generator's mutable position is threaded explicitly as a
`ℕ` through every operation that draws.  P-values are rationals, compared
with strict `<` exactly as in the source.
-/

/-- The external collaborators of the notebook, treated as black boxes:
`normal i` is the i-th draw of the process-wide seeded normal generator
(`np.random.normal`, after `np.random.seed`), `ttest_pvalue a b` is the
p-value returned by `scipy.stats.ttest_ind(a, b).pvalue`, and
`f_oneway_pvalue gs` is the p-value returned by
`scipy.stats.f_oneway(*gs).pvalue` on two or more groups. -/
structure Env where
  normal : ℕ → ℚ
  ttest_pvalue : List ℚ → List ℚ → ℚ
  f_oneway_pvalue : List (List ℚ) → ℚ

/-- `sample()` from the notebook: `return np.random.normal(size=100)`.
Draws a sample of 100 observations from the generator stream starting at
position `pos`; its only effect is advancing the position by 100.  The
function takes no size argument: the length 100 is fixed in the source. -/
def sample (env : Env) (pos : ℕ) : List ℚ × ℕ :=
  ((List.range 100).map fun i => env.normal (pos + i), pos + 100)

/-- `groups = [sample() for _ in range(num_groups)]`: draws `num_groups`
samples sequentially, threading the generator position. -/
def drawGroups (env : Env) : ℕ → ℕ → List (List ℚ) × ℕ
  | 0, pos => ([], pos)
  | num_groups + 1, pos =>
    let g := sample env pos
    let rest := drawGroups env num_groups g.2
    (g.1 :: rest.1, rest.2)

/-- `itertools.combinations(xs, r=2)`: all pairs `(xs[i], xs[j])` with
`i < j`, in lexicographic position order. -/
def combinations2 {α : Type} : List α → List (α × α)
  | [] => []
  | x :: xs => (xs.map fun y => (x, y)) ++ combinations2 xs

/-- `do_all_way_pairwise_tests(num_groups, pairwise_sig)` from the notebook:
draws `num_groups` samples, forms all pairs with `combinations`, builds the
list of per-pair indicators `ttest_ind(pair[0], pair[1]).pvalue <
pairwise_sig`, and returns `any` of that list. -/
def do_all_way_pairwise_tests (env : Env) (num_groups : ℕ) (pairwise_sig : ℚ)
    (pos : ℕ) : Bool × ℕ :=
  let gs := drawGroups env num_groups pos
  let pairs := combinations2 gs.1
  ((pairs.map fun pair => decide (env.ttest_pvalue pair.1 pair.2 < pairwise_sig)).any
      (fun b => b),
    gs.2)

/-- `scipy.stats.f_oneway(*groups).pvalue` as called by the notebook.  The
library documents that at least two samples are required and raises
`TypeError` otherwise; with two or more groups it returns the p-value of the
single F-test over all groups. -/
def f_oneway_call (env : Env) (groups : List (List ℚ)) : Except String ℚ :=
  if groups.length < 2 then Except.error "at least two inputs are required"
  else Except.ok (env.f_oneway_pvalue groups)

/-- `do_ANOVA(num_groups, sig)` from the notebook: draws `num_groups`
samples, builds an (unused) `pairs = combinations(groups, r=2)`, and returns
`f_oneway(*groups).pvalue < sig`.  There is no input validation of its own:
the groups are passed straight to the library call. -/
def do_ANOVA (env : Env) (num_groups : ℕ) (sig : ℚ) (pos : ℕ) :
    Except String Bool × ℕ :=
  let gs := drawGroups env num_groups pos
  let _pairs := combinations2 gs.1
  (match f_oneway_call env gs.1 with
    | Except.error e => Except.error e
    | Except.ok p => Except.ok (decide (p < sig)),
    gs.2)

/-- The driver cells' trial loop,
`results = [procedure(...) for _ in range(num_trials)]`: invokes the chosen
procedure `num_trials` times, threading the generator position, and collects
the boolean outcomes in order. -/
def run_trials (procedure : ℕ → Bool × ℕ) : ℕ → ℕ → List Bool × ℕ
  | 0, pos => ([], pos)
  | num_trials + 1, pos =>
    let r := procedure pos
    let rest := run_trials procedure num_trials r.2
    (r.1 :: rest.1, rest.2)

/-- `num_false_positives = results.count(True)` from the driver cells. -/
def num_false_positives (results : List Bool) : ℕ :=
  results.count true

/-- `empirical_FPR = num_false_positives / num_trials` from the driver
cells (division of numbers; modelled in ℚ). -/
def empirical_FPR (results : List Bool) (num_trials : ℕ) : ℚ :=
  (num_false_positives results : ℚ) / (num_trials : ℚ)

/-- A concrete environment used to evaluate the definitions on concrete
inputs: the generator stream enumerates the naturals, the t-test always
reports p-value 1/100, and the F-test always reports p-value 1/25. -/
def testEnv : Env where
  normal := fun i => (i : ℚ)
  ttest_pvalue := fun _ _ => 1 / 100
  f_oneway_pvalue := fun _ => 1 / 25

/-! ## Basic lemmas about the embedding -/

/-- `sample` always returns exactly 100 observations. -/
theorem sample_length (env : Env) (pos : ℕ) : (sample env pos).1.length = 100 := by
  simp [sample]

/-- `drawGroups` returns exactly `num_groups` samples. -/
theorem drawGroups_length (env : Env) (num_groups pos : ℕ) :
    (drawGroups env num_groups pos).1.length = num_groups := by
  induction num_groups generalizing pos with
  | zero => rfl
  | succ n ih => simp [drawGroups, ih]

/-- Every sample drawn by `drawGroups` has exactly 100 observations. -/
theorem drawGroups_mem_length (env : Env) (num_groups pos : ℕ) :
    ∀ g ∈ (drawGroups env num_groups pos).1, g.length = 100 := by
  induction num_groups generalizing pos with
  | zero => intro g hg; simp [drawGroups] at hg
  | succ n ih =>
    intro g hg
    simp only [drawGroups, List.mem_cons] at hg
    rcases hg with h | h
    · rw [h]; exact sample_length env pos
    · exact ih _ g h

/-- `combinations2` of a list of length `n` has `C(n, 2)` elements. -/
theorem combinations2_length {α : Type} (l : List α) :
    (combinations2 l).length = l.length.choose 2 := by
  induction l with
  | nil => rfl
  | cons x xs ih =>
    simp [combinations2, ih, Nat.choose_succ_succ (xs.length) 1, Nat.choose_one_right]

/-- `combinations2` of the drawn groups is empty when fewer than two groups
are drawn. -/
theorem combinations2_drawGroups_le_one (env : Env) (num_groups pos : ℕ)
    (h : num_groups ≤ 1) :
    combinations2 (drawGroups env num_groups pos).1 = [] := by
  interval_cases num_groups <;> simp [drawGroups, combinations2]

/-- `any` over a list is invariant under permutation of the list. -/
theorem perm_any_eq {α : Type} {l₁ l₂ : List α} (h : l₁.Perm l₂) (p : α → Bool) :
    l₁.any p = l₂.any p := by
  induction h with
  | nil => rfl
  | cons x _ ih => simp [List.any_cons, ih]
  | swap x y l => simp [List.any_cons, Bool.or_left_comm]
  | trans _ _ ih₁ ih₂ => rw [ih₁, ih₂]

/-- `results.count(True)` equals the length of the sublist of true
outcomes. -/
theorem count_true_eq_filter_length (l : List Bool) :
    l.count true = (l.filter fun b => b).length := by
  induction l with
  | nil => rfl
  | cons b bs ih => cases b <;> simp [List.count_cons, ih]

/-- The trial loop produces one outcome per trial. -/
theorem run_trials_length (procedure : ℕ → Bool × ℕ) (num_trials pos : ℕ) :
    (run_trials procedure num_trials pos).1.length = num_trials := by
  induction num_trials generalizing pos with
  | zero => rfl
  | succ n ih => simp [run_trials, ih]

/-- Two generators agreeing on the 100 positions consumed produce the same
sample. -/
theorem sample_congr (e₁ e₂ : Env) (pos : ℕ)
    (h : ∀ i, i < 100 → e₁.normal (pos + i) = e₂.normal (pos + i)) :
    sample e₁ pos = sample e₂ pos := by
  simp only [sample, Prod.mk.injEq, and_true]
  exact List.map_congr_left fun i hi => h i (List.mem_range.mp hi)

/-- Two generators agreeing on the `100 * num_groups` positions consumed
produce the same groups. -/
theorem drawGroups_congr (e₁ e₂ : Env) (num_groups pos : ℕ)
    (h : ∀ i, i < 100 * num_groups → e₁.normal (pos + i) = e₂.normal (pos + i)) :
    drawGroups e₁ num_groups pos = drawGroups e₂ num_groups pos := by
  induction num_groups generalizing pos with
  | zero => rfl
  | succ n ih =>
    have hs : sample e₁ pos = sample e₂ pos :=
      sample_congr e₁ e₂ pos fun i hi => h i (by omega)
    have hrest : drawGroups e₁ n (pos + 100) = drawGroups e₂ n (pos + 100) := by
      apply ih
      intro i hi
      have h2 := h (100 + i) (by omega)
      calc e₁.normal (pos + 100 + i) = e₁.normal (pos + (100 + i)) := by ring_nf
        _ = e₂.normal (pos + (100 + i)) := h2
        _ = e₂.normal (pos + 100 + i) := by ring_nf
    simp only [drawGroups]
    rw [hs, show (sample e₂ pos).2 = pos + 100 from rfl, hrest]

/-! ## The claims -/

/-- C1: for every `num_groups ≥ 2` and every alpha,
`do_all_way_pairwise_tests` forms `C(num_groups, 2)` pairs of the generated
groups and returns true if and only if at least one pair's t-test p-value is
strictly less than alpha — its result is the OR of the per-pair
indicators. -/
theorem all_pairs_or_of_indicators (env : Env) (num_groups : ℕ) (alpha : ℚ)
    (pos : ℕ) (h : 2 ≤ num_groups) :
    (combinations2 (drawGroups env num_groups pos).1).length = num_groups.choose 2 ∧
    ((do_all_way_pairwise_tests env num_groups alpha pos).1 = true ↔
      ∃ pair ∈ combinations2 (drawGroups env num_groups pos).1,
        env.ttest_pvalue pair.1 pair.2 < alpha) := by
  constructor
  · rw [combinations2_length, drawGroups_length]
  · simp [do_all_way_pairwise_tests, List.any_map, Function.comp]

/-- Witness for C1 at `num_groups = 2`, `alpha = 1/20`, `testEnv`. -/
theorem all_pairs_or_of_indicators_witness :
    (combinations2 (drawGroups testEnv 2 0).1).length = Nat.choose 2 2 ∧
    ((do_all_way_pairwise_tests testEnv 2 (1 / 20) 0).1 = true ↔
      ∃ pair ∈ combinations2 (drawGroups testEnv 2 0).1,
        testEnv.ttest_pvalue pair.1 pair.2 < 1 / 20) :=
  all_pairs_or_of_indicators testEnv 2 (1 / 20) 0 (by norm_num)

/-- C2: for every `num_groups ≥ 2` and every sig, `do_ANOVA` applies the
single one-way ANOVA F-test to all generated groups simultaneously and
returns true exactly when that one test's p-value is strictly less than
sig. -/
theorem do_ANOVA_single_global_test (env : Env) (num_groups : ℕ) (sig : ℚ)
    (pos : ℕ) (h : 2 ≤ num_groups) :
    (do_ANOVA env num_groups sig pos).1 =
      Except.ok (decide (env.f_oneway_pvalue (drawGroups env num_groups pos).1 < sig)) := by
  have hlen : ¬ (drawGroups env num_groups pos).1.length < 2 := by
    rw [drawGroups_length]; omega
  simp [do_ANOVA, f_oneway_call, hlen]

/-- Witness for C2 at `num_groups = 3`, `sig = 1/20`, `testEnv`. -/
theorem do_ANOVA_single_global_test_witness :
    (do_ANOVA testEnv 3 (1 / 20) 0).1 =
      Except.ok (decide (testEnv.f_oneway_pvalue (drawGroups testEnv 3 0).1 < 1 / 20)) :=
  do_ANOVA_single_global_test testEnv 3 (1 / 20) 0 (by norm_num)

/-- Counterexample to C3: at `num_groups = 1` neither procedure fails with
an InvalidArgument condition. `do_all_way_pairwise_tests` returns normally
with false, and `do_ANOVA` propagates the library's TypeError from
`f_oneway` rather than performing any validation of its own. -/
theorem no_invalid_argument_counterexample :
    (do_all_way_pairwise_tests testEnv 1 (1 / 20) 0).1 = false ∧
    (do_ANOVA testEnv 1 (1 / 20) 0).1 =
      Except.error "at least two inputs are required" := by
  exact ⟨rfl, rfl⟩

/-- C3 as amended: for every `num_groups ≤ 1` and every alpha,
`do_all_way_pairwise_tests` performs no validation and returns normally with
false, while `do_ANOVA` performs no validation either and fails only with
the error propagated from the `f_oneway` library call (which requires at
least two groups); neither raises an InvalidArgument condition. -/
theorem no_invalid_argument_validation (env : Env) (num_groups : ℕ) (sig : ℚ)
    (pos : ℕ) (h : num_groups ≤ 1) :
    (do_all_way_pairwise_tests env num_groups sig pos).1 = false ∧
    (do_ANOVA env num_groups sig pos).1 =
      Except.error "at least two inputs are required" := by
  have hc := combinations2_drawGroups_le_one env num_groups pos h
  have hlen : (drawGroups env num_groups pos).1.length < 2 := by
    rw [drawGroups_length]; omega
  constructor
  · simp [do_all_way_pairwise_tests, hc]
  · simp [do_ANOVA, f_oneway_call, hlen]

/-- Witness for the amended C3 at `num_groups = 1`. -/
theorem no_invalid_argument_validation_witness :
    (do_all_way_pairwise_tests testEnv 1 (1 / 10) 5).1 = false ∧
    (do_ANOVA testEnv 1 (1 / 10) 5).1 =
      Except.error "at least two inputs are required" :=
  no_invalid_argument_validation testEnv 1 (1 / 10) 5 (by norm_num)

/-- C4: for every `num_trials > 0`, the trial loop invokes the chosen
procedure exactly `num_trials` times (one boolean outcome per trial),
`num_false_positives` is the number of trials whose outcome was true, and
`empirical_FPR` is `num_false_positives / num_trials`. -/
theorem run_trials_aggregate (procedure : ℕ → Bool × ℕ) (num_trials pos : ℕ)
    (h : 0 < num_trials) :
    (run_trials procedure num_trials pos).1.length = num_trials ∧
    num_false_positives (run_trials procedure num_trials pos).1 =
      ((run_trials procedure num_trials pos).1.filter fun b => b).length ∧
    empirical_FPR (run_trials procedure num_trials pos).1 num_trials =
      (num_false_positives (run_trials procedure num_trials pos).1 : ℚ) /
        (num_trials : ℚ) :=
  ⟨run_trials_length procedure num_trials pos,
    count_true_eq_filter_length (run_trials procedure num_trials pos).1,
    rfl⟩

/-- Witness for C4 with a three-trial run of a concrete procedure. -/
theorem run_trials_aggregate_witness :
    (run_trials (fun pos => (true, pos + 1)) 3 0).1.length = 3 ∧
    num_false_positives (run_trials (fun pos => (true, pos + 1)) 3 0).1 =
      ((run_trials (fun pos => (true, pos + 1)) 3 0).1.filter fun b => b).length ∧
    empirical_FPR (run_trials (fun pos => (true, pos + 1)) 3 0).1 3 =
      (num_false_positives (run_trials (fun pos => (true, pos + 1)) 3 0).1 : ℚ) /
        (3 : ℚ) :=
  run_trials_aggregate (fun pos => (true, pos + 1)) 3 0 (by norm_num)

/-- C5: seed determinism. Two runs whose generators agree on the
`100 * num_groups` draws consumed (as two runs from the same seed do) and
whose library p-value functions agree produce identical Samples and
identical outcomes, for both procedures. -/
theorem seed_determinism (e₁ e₂ : Env) (num_groups : ℕ) (alpha : ℚ) (pos : ℕ)
    (hnormal : ∀ i, i < 100 * num_groups → e₁.normal (pos + i) = e₂.normal (pos + i))
    (httest : e₁.ttest_pvalue = e₂.ttest_pvalue)
    (hanova : e₁.f_oneway_pvalue = e₂.f_oneway_pvalue) :
    drawGroups e₁ num_groups pos = drawGroups e₂ num_groups pos ∧
    do_all_way_pairwise_tests e₁ num_groups alpha pos =
      do_all_way_pairwise_tests e₂ num_groups alpha pos ∧
    do_ANOVA e₁ num_groups alpha pos = do_ANOVA e₂ num_groups alpha pos := by
  have hg := drawGroups_congr e₁ e₂ num_groups pos hnormal
  refine ⟨hg, ?_, ?_⟩
  · simp [do_all_way_pairwise_tests, hg, httest]
  · simp [do_ANOVA, f_oneway_call, hg, hanova]

/-- Witness for C5: two runs in the very same environment. -/
theorem seed_determinism_witness :
    drawGroups testEnv 2 0 = drawGroups testEnv 2 0 ∧
    do_all_way_pairwise_tests testEnv 2 (1 / 20) 0 =
      do_all_way_pairwise_tests testEnv 2 (1 / 20) 0 ∧
    do_ANOVA testEnv 2 (1 / 20) 0 = do_ANOVA testEnv 2 (1 / 20) 0 :=
  seed_determinism testEnv testEnv 2 (1 / 20) 0 (fun _ _ => rfl) rfl rfl

/-- Counterexample to C6: the notebook's sample generator has no `size`
parameter, so the claimed contract "`generate_sample(size)` returns a Sample
of exactly `size` draws for every positive `size`" fails: at the concrete
requested size 5 the generator still returns its fixed 100 draws. -/
theorem sample_size_counterexample :
    ¬ ∀ size : ℕ, 0 < size → (sample testEnv 0).1.length = size := by
  intro hall
  have h5 := hall 5 (by norm_num)
  rw [sample_length] at h5
  exact absurd h5 (by norm_num)

/-- C6 as amended: the sample generator takes no size parameter and always
returns a Sample of exactly 100 draws read off the shared generator stream,
its only effect being to advance the stream position by 100. -/
theorem sample_fixed_size (env : Env) (pos : ℕ) :
    (sample env pos).1.length = 100 ∧
    (sample env pos).1 = ((List.range 100).map fun i => env.normal (pos + i)) ∧
    (sample env pos).2 = pos + 100 :=
  ⟨sample_length env pos, rfl, rfl⟩

/-- C7: the outcome of `do_all_way_pairwise_tests` is invariant under the
order in which the pairs are enumerated: any permutation of the pair
sequence yields the same OR of per-pair indicators, hence the same boolean
outcome. -/
theorem pairwise_order_invariant (env : Env) (num_groups : ℕ) (alpha : ℚ)
    (pos : ℕ) (pairs : List (List ℚ × List ℚ))
    (hperm : pairs.Perm (combinations2 (drawGroups env num_groups pos).1)) :
    (pairs.map fun pair => decide (env.ttest_pvalue pair.1 pair.2 < alpha)).any
        (fun b => b) =
      (do_all_way_pairwise_tests env num_groups alpha pos).1 := by
  simp only [do_all_way_pairwise_tests]
  exact perm_any_eq (hperm.map fun pair => decide (env.ttest_pvalue pair.1 pair.2 < alpha))
    (fun b => b)

/-- Witness for C7 with the identity permutation of the pairs of three
groups. -/
theorem pairwise_order_invariant_witness :
    ((combinations2 (drawGroups testEnv 3 0).1).map fun pair =>
        decide (testEnv.ttest_pvalue pair.1 pair.2 < 1 / 20)).any (fun b => b) =
      (do_all_way_pairwise_tests testEnv 3 (1 / 20) 0).1 :=
  pairwise_order_invariant testEnv 3 (1 / 20) 0 _ (List.Perm.refl _)

/-- C9: for every `num_groups ≤ 1` and every pairwise_sig,
`do_all_way_pairwise_tests` returns normally with false: it still draws
`num_groups` samples, the pair sequence is empty, and `any` of no indicators
is false — no error is raised. -/
theorem pairwise_le_one_returns_false (env : Env) (num_groups : ℕ) (sig : ℚ)
    (pos : ℕ) (h : num_groups ≤ 1) :
    (drawGroups env num_groups pos).1.length = num_groups ∧
    combinations2 (drawGroups env num_groups pos).1 = [] ∧
    (do_all_way_pairwise_tests env num_groups sig pos).1 = false := by
  have hc := combinations2_drawGroups_le_one env num_groups pos h
  exact ⟨drawGroups_length env num_groups pos, hc,
    by simp [do_all_way_pairwise_tests, hc]⟩

/-- Witness for C9 at `num_groups = 0`. -/
theorem pairwise_le_one_returns_false_witness :
    (drawGroups testEnv 0 0).1.length = 0 ∧
    combinations2 (drawGroups testEnv 0 0).1 = [] ∧
    (do_all_way_pairwise_tests testEnv 0 (1 / 20) 0).1 = false :=
  pairwise_le_one_returns_false testEnv 0 (1 / 20) 0 (by norm_num)

/-- C10: the sample generator takes no size parameter and always returns a
length-100 draw, so every group handed to the pairwise t-tests and to the
one-way ANOVA has exactly 100 observations, for every `num_groups`. -/
theorem every_group_has_100_observations (env : Env) (num_groups pos : ℕ) :
    (sample env pos).1.length = 100 ∧
    ((drawGroups env num_groups pos).1.all fun g => g.length == 100) = true := by
  refine ⟨sample_length env pos, ?_⟩
  rw [List.all_eq_true]
  intro g hg
  simpa using drawGroups_mem_length env num_groups pos g hg
